import Mathlib

/-!
Shallow embedding of the Onyx background indexing orchestrator
(`backend/onyx/background/celery/tasks/indexing/tasks.py` and
`backend/onyx/background/celery/tasks/docfetching/tasks.py`).

Each definition mirrors one function (or one decision point of a function)
of the Python source.  External effects (Redis writes, DB writes, raised
exceptions) are modelled as explicit effect records returned by the
embedded functions; external reads (Redis state, DB lookups, lock
acquisition results) are modelled as explicit inputs.
-/

namespace Onyx

/-- `IndexingWatchdogTerminalStatus` enum from `indexing/tasks.py`. -/
inductive IndexingWatchdogTerminalStatus where
  | undefined
  | succeeded
  | spawnFailed
  | spawnNotAlive
  | blockedByDeletion
  | blockedByStopSignal
  | fenceNotFound
  | fenceReadinessTimeout
  | fenceMismatch
  | taskAlreadyRunning
  | indexAttemptMismatch
  | connectorValidationError
  | connectorExceptioned
  | watchdogExceptioned
  | terminatedBySignal
  | terminatedByActivityTimeout
  | outOfMemory
  | processSignalSigkill
  deriving DecidableEq, Repr

namespace IndexingWatchdogTerminalStatus

/-- The `code` property: the `_ENUM_TO_CODE` table.  Statuses not present in
the table have no code (the Python property raises `KeyError`), modelled by
`none`. -/
def code : IndexingWatchdogTerminalStatus → Option Int
  | .processSignalSigkill => some (-9)
  | .outOfMemory => some 137
  | .connectorValidationError => some 247
  | .blockedByDeletion => some 248
  | .blockedByStopSignal => some 249
  | .fenceNotFound => some 250
  | .fenceReadinessTimeout => some 251
  | .fenceMismatch => some 252
  | .taskAlreadyRunning => some 253
  | .indexAttemptMismatch => some 254
  | .connectorExceptioned => some 255
  | _ => none

/-- The `from_code` classmethod: the `_CODE_TO_ENUM` table with an
`UNDEFINED` default. -/
def from_code (c : Int) : IndexingWatchdogTerminalStatus :=
  if c = -9 then .processSignalSigkill
  else if c = 137 then .outOfMemory
  else if c = 247 then .connectorValidationError
  else if c = 248 then .blockedByDeletion
  else if c = 249 then .blockedByStopSignal
  else if c = 250 then .fenceNotFound
  else if c = 251 then .fenceReadinessTimeout
  else if c = 252 then .fenceMismatch
  else if c = 253 then .taskAlreadyRunning
  else if c = 254 then .indexAttemptMismatch
  else if c = 255 then .connectorExceptioned
  else .undefined

end IndexingWatchdogTerminalStatus

/-- `ConnectorCredentialPairStatus` values used by the monitor
(from `onyx.db.enums`; the spec's data model lists exactly these). -/
inductive ConnectorCredentialPairStatus where
  | scheduled
  | initialIndexing
  | active
  | paused
  | deleting
  deriving DecidableEq, Repr

/-- The promotion condition at the end of `monitor_ccpair_indexing_taskset`,
transcribed with Python operator precedence (`and` binds tighter than `or`):

`index_attempt_is_successful and cc_pair.status == SCHEDULED
  or cc_pair.status == INITIAL_INDEXING`. -/
def monitorPromotesToActive (successful : Bool)
    (st : ConnectorCredentialPairStatus) : Bool :=
  (successful && (st = ConnectorCredentialPairStatus.scheduled)) ||
    (st = ConnectorCredentialPairStatus.initialIndexing)

/-- The cc-pair status after the monitor's finalization step: set to
`ACTIVE` when the promotion condition holds, unchanged otherwise. -/
def monitorFinalizeCCStatus (successful : Bool)
    (st : ConnectorCredentialPairStatus) : ConnectorCredentialPairStatus :=
  if monitorPromotesToActive successful st then .active else st

/-! ### Watchdog final reporting (`connector_indexing_proxy_task`, exit path) -/

/-- How the watchdog's final reporting touches the index-attempt row. -/
inductive AttemptMark where
  | markFailed
  | markCanceled
  | markSucceeded
  | markPartiallySucceeded
  deriving DecidableEq, Repr

/-- Observable effects of the watchdog's exit-and-reporting section. -/
structure FinalReportEffects where
  attemptMark : Option AttemptMark
  jobCanceled : Bool
  watchdogCleared : Bool
  raised : Bool
  deriving DecidableEq, Repr

/-- The "handle exit and reporting" tail of `connector_indexing_proxy_task`:
if an exception string was captured, mark the attempt failed, clear the
watchdog signal and re-raise; otherwise dispatch on the terminal status
(`TERMINATED_BY_SIGNAL` ⇒ `mark_attempt_canceled` + `job.cancel()`;
`TERMINATED_BY_ACTIVITY_TIMEOUT` ⇒ `mark_attempt_failed` + `job.cancel()`;
anything else ⇒ `pass`), then clear the watchdog signal. -/
def watchdogFinalReport (status : IndexingWatchdogTerminalStatus)
    (exceptionStr : Option String) : FinalReportEffects :=
  match exceptionStr with
  | some _ =>
    { attemptMark := some .markFailed
      jobCanceled := false
      watchdogCleared := true
      raised := true }
  | none =>
    if status = .terminatedBySignal then
      { attemptMark := some .markCanceled
        jobCanceled := true
        watchdogCleared := true
        raised := false }
    else if status = .terminatedByActivityTimeout then
      { attemptMark := some .markFailed
        jobCanceled := true
        watchdogCleared := true
        raised := false }
    else
      { attemptMark := none
        jobCanceled := false
        watchdogCleared := true
        raised := false }

/-! ### Watchdog supervisor poll (`connector_indexing_proxy_task`, main loop) -/

/-- The activity-tracking state of the supervisor loop:
`last_activity_ttl_observed` (a monotonic timestamp in seconds) and
`last_activity_ttl` (the last nonnegative TTL read). -/
structure WatchdogState where
  lastActivityTtlObserved : ℚ
  lastActivityTtl : Int
  deriving DecidableEq, Repr

/-- One poll's external observations: whether `job.done()`, whether the
termination key is set (`self.request.id and ...terminating(...)`), the
`connector_active_ttl()` read, and `now = time.monotonic()`. -/
structure PollObs where
  jobDone : Bool
  terminating : Bool
  ttl : Int
  now : ℚ
  deriving DecidableEq, Repr

/-- Outcome of one iteration of the supervisor loop. -/
inductive PollOutcome where
  | breakDone
  | breakSignal
  | breakTimeout
  | nextIter (st : WatchdogState)
  deriving DecidableEq, Repr

/-- One iteration of the supervisor loop of `connector_indexing_proxy_task`
(the break decisions, in source order; memory sampling and the attempt
re-read have no effect on the loop decision and are omitted):

1. `job.done()` ⇒ classify and break;
2. termination key set ⇒ `TERMINATED_BY_SIGNAL`, break;
3. `ttl < 0`: if `now > last_activity_ttl_observed + last_activity_ttl`
   ⇒ `TERMINATED_BY_ACTIVITY_TIMEOUT`, break; else log and keep waiting
   with the state unchanged;
4. `ttl ≥ 0`: record the observation and continue. -/
def watchdogPollStep (st : WatchdogState) (o : PollObs) : PollOutcome :=
  if o.jobDone then .breakDone
  else if o.terminating then .breakSignal
  else if o.ttl < 0 then
    if o.now > st.lastActivityTtlObserved + (st.lastActivityTtl : ℚ) then
      .breakTimeout
    else
      .nextIter st
  else
    .nextIter { lastActivityTtlObserved := o.now, lastActivityTtl := o.ttl }

/-! ### Fence-readiness wait (`docfetching_task`) -/

/-- `RedisConnectorIndexPayload`: the fence payload fields the wait loop
inspects. -/
structure FencePayload where
  index_attempt_id : Option Int
  celery_task_id : Option String
  deriving DecidableEq, Repr

/-- One poll's view of the fence: `redis_connector_index.fenced` and
`redis_connector_index.payload`, plus the elapsed wait
`time.monotonic() - start`. -/
structure FenceObs where
  elapsed : ℚ
  fenced : Bool
  payload : Option FencePayload
  deriving DecidableEq, Repr

/-- Outcome of one iteration of the fence-readiness wait loop:
exit with a coded `SimpleJobException`, sleep-and-retry, or proceed. -/
inductive FenceWaitStep where
  | exitWith (s : IndexingWatchdogTerminalStatus)
  | waitMore
  | ready (p : FencePayload)
  deriving DecidableEq, Repr

/-- One iteration of the fence-readiness wait loop of `docfetching_task`
(identical in `indexing/tasks.py` and `docfetching/tasks.py`):

1. elapsed wait beyond `CELERY_TASK_WAIT_FOR_FENCE_TIMEOUT` ⇒
   `FENCE_READINESS_TIMEOUT`;
2. fence absent ⇒ `FENCE_NOT_FOUND`;
3. payload absent ⇒ `FENCE_NOT_FOUND`;
4. `index_attempt_id` or `celery_task_id` unset ⇒ sleep 1s and retry;
5. payload `index_attempt_id` differs from the task argument ⇒
   `FENCE_MISMATCH`;
6. otherwise the fence is ready. -/
def fenceWaitStep (fenceTimeout : ℚ) (index_attempt_id : Int)
    (o : FenceObs) : FenceWaitStep :=
  if o.elapsed > fenceTimeout then
    .exitWith .fenceReadinessTimeout
  else if !o.fenced then
    .exitWith .fenceNotFound
  else
    match o.payload with
    | none => .exitWith .fenceNotFound
    | some p =>
      if p.index_attempt_id.isNone || p.celery_task_id.isNone then
        .waitMore
      else if p.index_attempt_id ≠ some index_attempt_id then
        .exitWith .fenceMismatch
      else
        .ready p

/-! ### Failure threshold (`_check_failure_threshold`) -/

/-- `ConnectorFailure`: only the field `_check_failure_threshold` reads. -/
structure ConnectorFailure where
  exception : Option String
  deriving DecidableEq, Repr

/-- What `_check_failure_threshold` raises when the threshold trips. -/
inductive ThresholdRaise where
  | lastFailureException (e : String)
  | runtimeError
  deriving DecidableEq, Repr

/-- `_check_failure_threshold`: with
`failure_ratio = total_failures / (document_count or 1)`, raise when
`total_failures > 3` and `failure_ratio > 0.1` — re-raising the last
failure's exception when present, else a `RuntimeError`.  Returning
`none` models a normal return. -/
def _check_failure_threshold (total_failures document_count batch_num : ℕ)
    (last_failure : Option ConnectorFailure) : Option ThresholdRaise :=
  let denom : ℚ := if document_count = 0 then 1 else (document_count : ℚ)
  let failure_ratio : ℚ := (total_failures : ℚ) / denom
  if 3 < total_failures ∧ (1 : ℚ) / 10 < failure_ratio then
    some (match last_failure with
      | some f =>
        match f.exception with
        | some e => .lastFailureException e
        | none => .runtimeError
      | none => .runtimeError)
  else
    none

/-! ### Completion detection (`check_indexing_completion`) -/

/-- `DocExtractionContext`: the field the completion check reads. -/
structure DocExtractionContext where
  doc_extraction_complete_batch_num : Option ℕ
  deriving DecidableEq, Repr

/-- `DocIndexingContext`: cross-batch indexing counters. -/
structure DocIndexingContext where
  batches_done : ℕ
  total_failures : ℕ
  net_doc_change : ℕ
  total_chunks : ℕ
  deriving DecidableEq, Repr

/-- `IndexingMode` (`cc_pair.indexing_trigger` values). -/
inductive IndexingMode where
  | update
  | reindex
  deriving DecidableEq, Repr

/-- The DB lookups `check_indexing_completion` performs after marking the
attempt: whether `get_index_attempt` finds the row, the cc-pair's
`indexing_trigger`, and whether the attempt's `search_settings` is set. -/
structure CompletionDbView where
  attemptFound : Bool
  indexingTrigger : Option IndexingMode
  hasSearchSettings : Bool
  deriving DecidableEq, Repr

/-- Observable effects of `check_indexing_completion`. -/
structure CompletionEffects where
  attemptMark : Option AttemptMark
  triggerCleared : Bool
  batchesCleaned : Bool
  fenceReset : Bool
  deriving DecidableEq, Repr

/-- `check_indexing_completion` (happy path, no storage exceptions):
`extraction_completed = batches_total is not None and
batches_processed >= batches_total`; when not complete, return with no
effects; when complete, mark the attempt `SUCCESS` if `total_failures == 0`
else `PARTIAL_SUCCESS`, clear the cc-pair's indexing trigger when one is
set, clean up all batches, and reset the fence when the attempt row with
its search settings is found. -/
def check_indexing_completion (ext : DocExtractionContext)
    (ind : DocIndexingContext) (db : CompletionDbView) : CompletionEffects :=
  match ext.doc_extraction_complete_batch_num with
  | none =>
    { attemptMark := none, triggerCleared := false
      batchesCleaned := false, fenceReset := false }
  | some batches_total =>
    if ind.batches_done ≥ batches_total then
      { attemptMark :=
          some (if ind.total_failures = 0 then .markSucceeded
                else .markPartiallySucceeded)
        triggerCleared := db.attemptFound && db.indexingTrigger.isSome
        batchesCleaned := true
        fenceReset := db.attemptFound && db.hasSearchSettings }
    else
      { attemptMark := none, triggerCleared := false
        batchesCleaned := false, fenceReset := false }

/-! ### Per-batch pipeline task (`document_indexing_pipeline_task`) -/

/-- External observations driving one run of
`document_indexing_pipeline_task`: each flag is the outcome of a call the
task makes, in source order. -/
structure PipelineEnv where
  batchFound : Bool
  attemptFound : Bool
  searchSettingsSet : Bool
  perBatchLockAcquired : Bool
  pipelineRaises : Bool
  thresholdTrips : Bool
  handlerAttemptFound : Bool
  handlerHasSearchSettings : Bool
  deriving DecidableEq, Repr

/-- Observable effects of one run of `document_indexing_pipeline_task`. -/
structure PipelineRun where
  completionWrite : Option ℕ
  lockWasAcquired : Bool
  lockReleased : Bool
  raised : Bool
  deriving DecidableEq, Repr

/-- The exception handler of `document_indexing_pipeline_task`: re-look up
the attempt; only when it is found with search settings set, write the
completion marker `HTTPStatus.INTERNAL_SERVER_ERROR` (500); then re-raise.
The `finally` releases the per-batch lock when it is held. -/
def pipelineOnError (env : PipelineEnv) (lockHeld : Bool) : PipelineRun :=
  { completionWrite :=
      if env.handlerAttemptFound && env.handlerHasSearchSettings then
        some 500
      else none
    lockWasAcquired := lockHeld
    lockReleased := lockHeld
    raised := true }

/-- Control flow of `document_indexing_pipeline_task`:

1. empty/missing batch ⇒ log and return;
2. attempt row missing ⇒ `RuntimeError` (handled by the except branch);
3. `search_settings is None` ⇒ `ValueError` (except branch);
4. per-batch lock `acquire(blocking=False)` fails ⇒ `SimpleJobException`
   with code 253 (except branch; the lock is not held so not released);
5. the indexing pipeline raising, or `_check_failure_threshold` raising,
   reaches the except branch with the lock held;
6. otherwise the run succeeds and the `finally` releases the lock. -/
def document_indexing_pipeline_task (env : PipelineEnv) : PipelineRun :=
  if !env.batchFound then
    { completionWrite := none, lockWasAcquired := false
      lockReleased := false, raised := false }
  else if !env.attemptFound then
    pipelineOnError env false
  else if !env.searchSettingsSet then
    pipelineOnError env false
  else if !env.perBatchLockAcquired then
    pipelineOnError env false
  else if env.pipelineRaises then
    pipelineOnError env true
  else if env.thresholdTrips then
    pipelineOnError env true
  else
    { completionWrite := none, lockWasAcquired := true
      lockReleased := true, raised := false }

/-! ### Beat tick guard (`check_for_indexing`) -/

/-- The phases of the beat tick body, in source order. -/
inductive BeatPhase where
  | fenceLookupTableSync
  | kickoff
  | failUnfencedAttempts
  | validateIndexingFences
  | finalize
  deriving DecidableEq, Repr

/-- External observations driving one `check_for_indexing` invocation. -/
structure BeatEnv where
  lockAcquired : Bool
  buildFenceLookupBlockAbsent : Bool
  validateFencesBlockAbsent : Bool
  tasksCreated : ℕ
  deriving DecidableEq, Repr

/-- Result of one `check_for_indexing` invocation: the task's return value,
the phases that executed, and whether the beat lock was released. -/
structure BeatRun where
  returnValue : Option ℕ
  phasesExecuted : List BeatPhase
  lockReleased : Bool
  deriving DecidableEq, Repr

/-- `check_for_indexing` (phase structure):
`if not lock_beat.acquire(blocking=False): return None` before any work;
otherwise the lookup-table sync runs only when its TTL block signal is
absent, then kick-off, unfenced-attempt failure, fence validation (again
TTL-gated) and finalization run, and the lock is released in `finally`. -/
def check_for_indexing (env : BeatEnv) : BeatRun :=
  if !env.lockAcquired then
    { returnValue := none, phasesExecuted := [], lockReleased := false }
  else
    { returnValue := some env.tasksCreated
      phasesExecuted :=
        (if env.buildFenceLookupBlockAbsent then
          [BeatPhase.fenceLookupTableSync] else []) ++
        [BeatPhase.kickoff, BeatPhase.failUnfencedAttempts] ++
        (if env.validateFencesBlockAbsent then
          [BeatPhase.validateIndexingFences] else []) ++
        [BeatPhase.finalize]
      lockReleased := true }

/-! ### Job-result classification (`process_job_result`) -/

/-- `job.status` values exposed by the job client. -/
inductive JobStatus where
  | running
  | error
  | ok
  deriving DecidableEq, Repr

/-- `SimpleJobResult` fields written by `process_job_result`. -/
structure SimpleJobResult where
  status : IndexingWatchdogTerminalStatus
  exit_code : Option Int
  exception_str : Option String
  deriving DecidableEq, Repr

/-- `process_job_result`, parameterized by the set of integers accepted by
Python's `HTTPStatus(...)` constructor (`validHTTP`); an invalid stored
completion value makes the constructor raise, modelled by `Except.error`:

1. record the child's exit code;
2. `job.status != "error"` ⇒ `SUCCEEDED`;
3. read the completion marker; when truthy (present and non-zero) and equal
   to `HTTPStatus.OK` (200), ignore the error state ⇒ `SUCCEEDED` with no
   exception string;
4. otherwise classify the exit code through `from_code` (when one exists)
   and record `job.exception()`. -/
def process_job_result (validHTTP : Int → Bool) (jobStatus : JobStatus)
    (exitcode : Option Int) (completion : Option Int)
    (jobException : String) : Except Int SimpleJobResult :=
  let base : SimpleJobResult :=
    { status := .undefined, exit_code := exitcode, exception_str := none }
  if jobStatus ≠ JobStatus.error then
    .ok { base with status := .succeeded }
  else
    let classify : Except Int SimpleJobResult :=
      .ok { base with
              status :=
                match exitcode with
                | some ec => IndexingWatchdogTerminalStatus.from_code ec
                | none => .undefined
              exception_str := some jobException }
    match completion with
    | some c =>
      if c ≠ 0 then
        if validHTTP c then
          if c = 200 then .ok { base with status := .succeeded }
          else classify
        else .error c
      else classify
    | none => classify

end Onyx

namespace Onyx

/-- C1: in the monitor's finalization step, a non-successful index attempt
still promotes the cc-pair to `ACTIVE` when its status is
`INITIAL_INDEXING`: the unparenthesized condition
`successful and status == SCHEDULED or status == INITIAL_INDEXING`
evaluates to true regardless of success, contradicting the stated
"promote only if the attempt succeeded" behavior (and the source's own
comment above the condition). -/
theorem C1_failed_attempt_promoted_to_active :
    monitorFinalizeCCStatus false ConnectorCredentialPairStatus.initialIndexing
      = ConnectorCredentialPairStatus.active := by
  decide

/-- C2 counterexample: the claim maps `TERMINATED_BY_ACTIVITY_TIMEOUT` to
`mark_attempt_canceled` and `TERMINATED_BY_SIGNAL` to
`mark_attempt_failed`; the code does the opposite, so the claimed pair of
assignments is false. -/
theorem C2_counterexample_marks_swapped :
    ¬ ((watchdogFinalReport .terminatedByActivityTimeout none).attemptMark
          = some AttemptMark.markCanceled ∧
       (watchdogFinalReport .terminatedBySignal none).attemptMark
          = some AttemptMark.markFailed) := by
  decide

/-- C2 (amended): with no captured exception, the watchdog's final
reporting marks the attempt failed on `TERMINATED_BY_ACTIVITY_TIMEOUT`
and canceled on `TERMINATED_BY_SIGNAL`; in both cases it calls
`job.cancel()` and clears the `watchdog_active` signal. -/
theorem C2_final_report_dispatch :
    watchdogFinalReport .terminatedByActivityTimeout none
      = { attemptMark := some AttemptMark.markFailed, jobCanceled := true
          watchdogCleared := true, raised := false } ∧
    watchdogFinalReport .terminatedBySignal none
      = { attemptMark := some AttemptMark.markCanceled, jobCanceled := true
          watchdogCleared := true, raised := false } := by
  decide

/-- C3: when completion is detected (`doc_extraction_complete_batch_num`
set and `batches_done ≥` it) and the attempt row with its search settings
is found, the attempt is marked SUCCESS exactly when `total_failures = 0`
and PARTIAL_SUCCESS exactly when `total_failures > 0`; a set indexing
trigger is cleared, all batches are cleaned up, and the fence is reset. -/
theorem C3_completion_finalization (ext : DocExtractionContext)
    (ind : DocIndexingContext) (db : CompletionDbView) (batches_total : ℕ)
    (hset : ext.doc_extraction_complete_batch_num = some batches_total)
    (hdone : batches_total ≤ ind.batches_done)
    (hatt : db.attemptFound = true)
    (hss : db.hasSearchSettings = true) :
    ((check_indexing_completion ext ind db).attemptMark
        = some AttemptMark.markSucceeded ↔ ind.total_failures = 0) ∧
    ((check_indexing_completion ext ind db).attemptMark
        = some AttemptMark.markPartiallySucceeded ↔ 0 < ind.total_failures) ∧
    (db.indexingTrigger.isSome = true →
      (check_indexing_completion ext ind db).triggerCleared = true) ∧
    (check_indexing_completion ext ind db).batchesCleaned = true ∧
    (check_indexing_completion ext ind db).fenceReset = true := by
  unfold check_indexing_completion
  rw [hset]
  simp only [ge_iff_le, hdone, if_true, hatt, hss, Bool.true_and]
  rcases Nat.eq_zero_or_pos ind.total_failures with h0 | hpos
  · simp [h0]
  · simp [Nat.pos_iff_ne_zero.mp hpos, hpos, Nat.pos_iff_ne_zero]

/-- C3 witness: three processed batches out of three with no failures mark
the attempt SUCCESS, clear the trigger, clean batches, and reset the
fence. -/
theorem C3_completion_finalization_witness :
    (check_indexing_completion ⟨some 3⟩ ⟨3, 0, 40, 100⟩
        ⟨true, some IndexingMode.reindex, true⟩).attemptMark
      = some AttemptMark.markSucceeded ∧
    (check_indexing_completion ⟨some 3⟩ ⟨3, 0, 40, 100⟩
        ⟨true, some IndexingMode.reindex, true⟩).triggerCleared = true ∧
    (check_indexing_completion ⟨some 3⟩ ⟨3, 0, 40, 100⟩
        ⟨true, some IndexingMode.reindex, true⟩).fenceReset = true := by
  have h := C3_completion_finalization ⟨some 3⟩ ⟨3, 0, 40, 100⟩
    ⟨true, some IndexingMode.reindex, true⟩ 3 rfl (by decide) rfl rfl
  exact ⟨h.1.mpr rfl, h.2.2.1 rfl, h.2.2.2.2⟩

/-- C4: `_check_failure_threshold` raises if and only if
`total_failures > 3` and the failure ratio exceeds `0.1` (for a positive
document count the code's `document_count or 1` denominator is just the
document count); when it raises, it re-raises the last failure's exception
when one is present and a `RuntimeError` otherwise. -/
theorem C4_failure_threshold (total_failures document_count batch_num : ℕ)
    (last_failure : Option ConnectorFailure) (hdc : 0 < document_count) :
    ((_check_failure_threshold total_failures document_count batch_num
        last_failure).isSome ↔
      3 < total_failures ∧
        (1 : ℚ) / 10 < (total_failures : ℚ) / (document_count : ℚ)) ∧
    (∀ f e, last_failure = some f → f.exception = some e →
      3 < total_failures →
      (1 : ℚ) / 10 < (total_failures : ℚ) / (document_count : ℚ) →
      _check_failure_threshold total_failures document_count batch_num
          last_failure = some (ThresholdRaise.lastFailureException e)) ∧
    ((last_failure = none ∨
        ∃ f, last_failure = some f ∧ f.exception = none) →
      3 < total_failures →
      (1 : ℚ) / 10 < (total_failures : ℚ) / (document_count : ℚ) →
      _check_failure_threshold total_failures document_count batch_num
          last_failure = some ThresholdRaise.runtimeError) := by
  have hne : document_count ≠ 0 := Nat.pos_iff_ne_zero.mp hdc
  unfold _check_failure_threshold
  simp only [hne, if_false]
  refine ⟨?_, ?_, ?_⟩
  · split_ifs with h
    · simpa using h
    · simpa using h
  · rintro f e rfl he h1 h2
    have h2i : (10 : ℚ)⁻¹ < (total_failures : ℚ) / (document_count : ℚ) := by
      simpa [one_div] using h2
    simp [h1, h2i, he]
  · intro hcase h1 h2
    have h2i : (10 : ℚ)⁻¹ < (total_failures : ℚ) / (document_count : ℚ) := by
      simpa [one_div] using h2
    rcases hcase with rfl | ⟨f, rfl, he⟩
    · simp [h1, h2i]
    · simp [h1, h2i, he]

/-- C4 witness: 5 failures over 40 documents (ratio `0.125 > 0.1`,
`5 > 3`) raises, re-raising the recorded last-failure exception; and 3
failures never raise. -/
theorem C4_failure_threshold_witness :
    0 < 40 ∧
    _check_failure_threshold 5 40 4 (some ⟨some "boom"⟩)
      = some (ThresholdRaise.lastFailureException "boom") ∧
    ¬ (_check_failure_threshold 3 1 4 none).isSome := by
  have h := C4_failure_threshold 5 40 4 (some ⟨some "boom"⟩) (by decide)
  refine ⟨by decide, h.2.1 _ _ rfl rfl (by decide) (by norm_num), ?_⟩
  have h3 := C4_failure_threshold 3 1 4 none (by decide)
  rw [h3.1]
  simp

/-- C5: the watchdog's poll terminates the supervisor loop with
`TERMINATED_BY_ACTIVITY_TIMEOUT` exactly when (no earlier break applies
and) the `connector_active` TTL read is negative and
`now > last_activity_ttl_observed + last_activity_ttl` (equivalently
`last_observed_ttl + last_observed_timestamp < now`); a negative TTL
observation that does not satisfy the inequality leaves the loop running
with the tracking state unchanged. -/
theorem C5_activity_timeout_decision (st : WatchdogState) (o : PollObs) :
    (watchdogPollStep st o = PollOutcome.breakTimeout ↔
      o.jobDone = false ∧ o.terminating = false ∧ o.ttl < 0 ∧
        st.lastActivityTtlObserved + (st.lastActivityTtl : ℚ) < o.now) ∧
    (o.ttl < 0 →
      ¬ (st.lastActivityTtlObserved + (st.lastActivityTtl : ℚ) < o.now) →
      o.jobDone = false → o.terminating = false →
      watchdogPollStep st o = PollOutcome.nextIter st) := by
  unfold watchdogPollStep
  constructor
  · split_ifs with h1 h2 h3 h4 <;>
      simp_all [gt_iff_lt, not_lt]
  · intro hneg hlt hdone hterm
    simp [hdone, hterm, hneg, gt_iff_lt, hlt]

/-- C5 witness: with last observation at `t=10` and TTL `30`, a negative
TTL read at `now=45` (`45 > 40`) terminates with
`TERMINATED_BY_ACTIVITY_TIMEOUT`, while the same read at `now=35`
(`35 ≤ 40`) keeps the loop running with the state unchanged. -/
theorem C5_activity_timeout_decision_witness :
    watchdogPollStep ⟨10, 30⟩ ⟨false, false, -2, 45⟩
      = PollOutcome.breakTimeout ∧
    watchdogPollStep ⟨10, 30⟩ ⟨false, false, -2, 35⟩
      = PollOutcome.nextIter ⟨10, 30⟩ := by
  constructor
  · exact (C5_activity_timeout_decision ⟨10, 30⟩ ⟨false, false, -2, 45⟩).1.mpr
      ⟨rfl, rfl, by norm_num, by norm_num⟩
  · exact (C5_activity_timeout_decision ⟨10, 30⟩ ⟨false, false, -2, 35⟩).2
      (by norm_num) (by norm_num) rfl rfl

/-- C6: the fence-readiness wait of `docfetching_task` exits with code 251
(`FENCE_READINESS_TIMEOUT`) when the total wait exceeds the fence
timeout, with code 250 (`FENCE_NOT_FOUND`) when the fence or its payload
is absent, keeps polling while the payload's `index_attempt_id` or
`celery_task_id` is unpopulated, exits with code 252 (`FENCE_MISMATCH`)
when the populated `index_attempt_id` differs from the task's argument,
and proceeds normally when all conditions are met. -/
theorem C6_fence_wait_decision (fenceTimeout : ℚ) (index_attempt_id : Int)
    (o : FenceObs) :
    (fenceTimeout < o.elapsed →
      fenceWaitStep fenceTimeout index_attempt_id o
        = FenceWaitStep.exitWith .fenceReadinessTimeout) ∧
    (o.elapsed ≤ fenceTimeout → o.fenced = false →
      fenceWaitStep fenceTimeout index_attempt_id o
        = FenceWaitStep.exitWith .fenceNotFound) ∧
    (o.elapsed ≤ fenceTimeout → o.fenced = true → o.payload = none →
      fenceWaitStep fenceTimeout index_attempt_id o
        = FenceWaitStep.exitWith .fenceNotFound) ∧
    (∀ p, o.elapsed ≤ fenceTimeout → o.fenced = true → o.payload = some p →
      (p.index_attempt_id = none ∨ p.celery_task_id = none) →
      fenceWaitStep fenceTimeout index_attempt_id o
        = FenceWaitStep.waitMore) ∧
    (∀ p a ct, o.elapsed ≤ fenceTimeout → o.fenced = true →
      o.payload = some p → p.index_attempt_id = some a →
      p.celery_task_id = some ct → a ≠ index_attempt_id →
      fenceWaitStep fenceTimeout index_attempt_id o
        = FenceWaitStep.exitWith .fenceMismatch) ∧
    (∀ p ct, o.elapsed ≤ fenceTimeout → o.fenced = true →
      o.payload = some p → p.index_attempt_id = some index_attempt_id →
      p.celery_task_id = some ct →
      fenceWaitStep fenceTimeout index_attempt_id o
        = FenceWaitStep.ready p) ∧
    IndexingWatchdogTerminalStatus.code .fenceNotFound = some 250 ∧
    IndexingWatchdogTerminalStatus.code .fenceReadinessTimeout = some 251 ∧
    IndexingWatchdogTerminalStatus.code .fenceMismatch = some 252 := by
  refine ⟨?_, ?_, ?_, ?_, ?_, ?_, rfl, rfl, rfl⟩
  · intro h
    simp [fenceWaitStep, gt_iff_lt, h]
  · intro h hf
    simp [fenceWaitStep, gt_iff_lt, not_lt.mpr h, hf]
  · intro h hf hp
    simp [fenceWaitStep, gt_iff_lt, not_lt.mpr h, hf, hp]
  · intro p h hf hp hid
    rcases hid with hid | hid <;>
      simp [fenceWaitStep, gt_iff_lt, not_lt.mpr h, hf, hp, hid]
  · intro p a ct h hf hp ha hct hne
    simp [fenceWaitStep, gt_iff_lt, not_lt.mpr h, hf, hp, ha, hct, hne]
  · intro p ct h hf hp ha hct
    simp [fenceWaitStep, gt_iff_lt, not_lt.mpr h, hf, hp, ha, hct]

/-- C6 witness: with a 300s fence timeout and task attempt id 7 — a poll at
301s exits 251; an absent fence at 10s exits 250; a populated payload for
attempt 8 exits 252; an unpopulated payload waits; a matching payload is
ready. -/
theorem C6_fence_wait_decision_witness :
    fenceWaitStep 300 7 ⟨301, true, some ⟨some 7, some "t"⟩⟩
      = FenceWaitStep.exitWith .fenceReadinessTimeout ∧
    fenceWaitStep 300 7 ⟨10, false, none⟩
      = FenceWaitStep.exitWith .fenceNotFound ∧
    fenceWaitStep 300 7 ⟨10, true, some ⟨some 8, some "t"⟩⟩
      = FenceWaitStep.exitWith .fenceMismatch ∧
    fenceWaitStep 300 7 ⟨10, true, some ⟨none, some "t"⟩⟩
      = FenceWaitStep.waitMore ∧
    fenceWaitStep 300 7 ⟨10, true, some ⟨some 7, some "t"⟩⟩
      = FenceWaitStep.ready ⟨some 7, some "t"⟩ := by
  refine ⟨(C6_fence_wait_decision 300 7 _).1 (by norm_num),
    (C6_fence_wait_decision 300 7 _).2.1 (by norm_num) rfl,
    (C6_fence_wait_decision 300 7 _).2.2.2.2.1 ⟨some 8, some "t"⟩ 8 "t"
      (by norm_num) rfl rfl rfl rfl (by decide),
    (C6_fence_wait_decision 300 7 _).2.2.2.1 ⟨none, some "t"⟩
      (by norm_num) rfl rfl (Or.inl rfl),
    (C6_fence_wait_decision 300 7 _).2.2.2.2.2.1 ⟨some 7, some "t"⟩ "t"
      (by norm_num) rfl rfl rfl rfl⟩

/-- C7 counterexample: a run of `document_indexing_pipeline_task` whose
pipeline raises but whose exception handler no longer finds the attempt
row re-raises without writing the completion marker, so the claimed
unconditional 500 write is false. -/
theorem C7_counterexample_no_completion_write :
    (document_indexing_pipeline_task
        ⟨true, true, true, true, true, false, false, true⟩).raised = true ∧
    (document_indexing_pipeline_task
        ⟨true, true, true, true, true, false, false, true⟩).completionWrite
      ≠ some 500 := by
  decide

/-- C7 (amended): if `document_indexing_pipeline_task` raises any uncaught
exception after loading its batch, it re-raises, writing the completion
marker 500 beforehand provided the handler's re-lookup still finds the
attempt row with its search settings set; and the per-batch lock is
released whenever it was acquired. -/
theorem C7_pipeline_error_effects (env : PipelineEnv)
    (hr : (document_indexing_pipeline_task env).raised = true) :
    ((env.handlerAttemptFound && env.handlerHasSearchSettings) = true →
      (document_indexing_pipeline_task env).completionWrite = some 500) ∧
    ((document_indexing_pipeline_task env).lockWasAcquired = true →
      (document_indexing_pipeline_task env).lockReleased = true) := by
  obtain ⟨b1, b2, b3, b4, b5, b6, b7, b8⟩ := env
  revert hr
  cases b1 <;> cases b2 <;> cases b3 <;> cases b4 <;> cases b5 <;>
    cases b6 <;> cases b7 <;> cases b8 <;> decide

/-- C7 witness: a pipeline exception with the attempt row still present
writes completion 500 and releases the acquired per-batch lock. -/
theorem C7_pipeline_error_effects_witness :
    (document_indexing_pipeline_task
        ⟨true, true, true, true, true, false, true, true⟩).completionWrite
      = some 500 ∧
    (document_indexing_pipeline_task
        ⟨true, true, true, true, true, false, true, true⟩).lockReleased
      = true := by
  have h := C7_pipeline_error_effects
    ⟨true, true, true, true, true, false, true, true⟩ (by decide)
  exact ⟨h.1 rfl, h.2 rfl⟩

/-- C8: `from_code` inverts the `code` table on every status that has a
code (-9 SIGKILL, 137 OOM, 247 validation error, 248 blocked-by-deletion,
249 blocked-by-stop, 250 fence not found, 251 fence readiness timeout,
252 fence mismatch, 253 task already running, 254 index-attempt mismatch,
255 connector exceptioned), and every other non-zero integer maps to
`UNDEFINED`. -/
theorem C8_exit_code_registry :
    (∀ s c, IndexingWatchdogTerminalStatus.code s = some c →
      IndexingWatchdogTerminalStatus.from_code c = s) ∧
    IndexingWatchdogTerminalStatus.code .processSignalSigkill = some (-9) ∧
    IndexingWatchdogTerminalStatus.code .outOfMemory = some 137 ∧
    IndexingWatchdogTerminalStatus.code .connectorValidationError
      = some 247 ∧
    IndexingWatchdogTerminalStatus.code .blockedByDeletion = some 248 ∧
    IndexingWatchdogTerminalStatus.code .blockedByStopSignal = some 249 ∧
    IndexingWatchdogTerminalStatus.code .fenceNotFound = some 250 ∧
    IndexingWatchdogTerminalStatus.code .fenceReadinessTimeout = some 251 ∧
    IndexingWatchdogTerminalStatus.code .fenceMismatch = some 252 ∧
    IndexingWatchdogTerminalStatus.code .taskAlreadyRunning = some 253 ∧
    IndexingWatchdogTerminalStatus.code .indexAttemptMismatch = some 254 ∧
    IndexingWatchdogTerminalStatus.code .connectorExceptioned = some 255 ∧
    (∀ n : Int, n ≠ 0 → n ≠ -9 → n ≠ 137 → n ≠ 247 → n ≠ 248 → n ≠ 249 →
      n ≠ 250 → n ≠ 251 → n ≠ 252 → n ≠ 253 → n ≠ 254 → n ≠ 255 →
      IndexingWatchdogTerminalStatus.from_code n
        = IndexingWatchdogTerminalStatus.undefined) := by
  refine ⟨?_, rfl, rfl, rfl, rfl, rfl, rfl, rfl, rfl, rfl, rfl, rfl, ?_⟩
  · intro s c h
    cases s <;> simp [IndexingWatchdogTerminalStatus.code] at h <;>
      simp [← h, IndexingWatchdogTerminalStatus.from_code]
  · intro n h0 h1 h2 h3 h4 h5 h6 h7 h8 h9 h10 h11
    simp [IndexingWatchdogTerminalStatus.from_code,
      h1, h2, h3, h4, h5, h6, h7, h8, h9, h10, h11]

/-- C8 witness: code 250 round-trips to `FENCE_NOT_FOUND`, and the
unregistered non-zero code 17 maps to `UNDEFINED`. -/
theorem C8_exit_code_registry_witness :
    IndexingWatchdogTerminalStatus.from_code 250
      = IndexingWatchdogTerminalStatus.fenceNotFound ∧
    IndexingWatchdogTerminalStatus.from_code 17
      = IndexingWatchdogTerminalStatus.undefined := by
  refine ⟨C8_exit_code_registry.1 .fenceNotFound 250 rfl, ?_⟩
  exact C8_exit_code_registry.2.2.2.2.2.2.2.2.2.2.2.2 17 (by decide)
    (by decide) (by decide) (by decide) (by decide) (by decide) (by decide)
    (by decide) (by decide) (by decide) (by decide) (by decide)

/-- C9: when the non-blocking acquisition of the beat lock fails,
`check_for_indexing` returns `None` immediately: no phase of the beat body
executes and the lock is not released. -/
theorem C9_beat_lock_guard (env : BeatEnv)
    (h : env.lockAcquired = false) :
    check_for_indexing env
      = { returnValue := none, phasesExecuted := [], lockReleased := false } := by
  simp [check_for_indexing, h]

/-- C9 witness: a contended beat lock yields an immediate empty run. -/
theorem C9_beat_lock_guard_witness :
    check_for_indexing ⟨false, true, true, 5⟩
      = { returnValue := none, phasesExecuted := [], lockReleased := false } :=
  C9_beat_lock_guard ⟨false, true, true, 5⟩ rfl

/-- C10: in `process_job_result`, when `job.status == "error"` but the
completion marker reads 200, the result is `SUCCEEDED` with no exception
string regardless of the child's exit code; the exit code is classified
through `from_code` (with `job.exception()` recorded) only when the marker
is absent, falsy, or not 200. -/
theorem C10_job_result_classification (validHTTP : Int → Bool)
    (exitcode : Option Int) (c : Int) (jobException : String)
    (h200 : validHTTP 200 = true) :
    (process_job_result validHTTP JobStatus.error exitcode (some 200)
        jobException
      = Except.ok { status := .succeeded, exit_code := exitcode
                    exception_str := none }) ∧
    (∀ ec, exitcode = some ec →
      process_job_result validHTTP JobStatus.error exitcode none
          jobException
        = Except.ok { status := IndexingWatchdogTerminalStatus.from_code ec
                      exit_code := exitcode
                      exception_str := some jobException }) ∧
    (∀ ec, exitcode = some ec → c ≠ 0 → c ≠ 200 → validHTTP c = true →
      process_job_result validHTTP JobStatus.error exitcode (some c)
          jobException
        = Except.ok { status := IndexingWatchdogTerminalStatus.from_code ec
                      exit_code := exitcode
                      exception_str := some jobException }) := by
  refine ⟨?_, ?_, ?_⟩
  · simp [process_job_result, h200]
  · rintro ec rfl
    simp [process_job_result]
  · rintro ec rfl hc0 hc200 hvalid
    simp [process_job_result, hc0, hc200, hvalid]

/-- C10 witness: an errored job with exit code 1 but completion 200 is
`SUCCEEDED` with no exception string; with the marker absent, exit code
250 is classified as `FENCE_NOT_FOUND` with the exception recorded. -/
theorem C10_job_result_classification_witness :
    (process_job_result (fun c => c == 200 || c == 500) JobStatus.error
        (some 1) (some 200) "exc"
      = Except.ok { status := .succeeded, exit_code := some 1
                    exception_str := none }) ∧
    (process_job_result (fun c => c == 200 || c == 500) JobStatus.error
        (some 250) none "exc"
      = Except.ok { status := IndexingWatchdogTerminalStatus.fenceNotFound
                    exit_code := some 250
                    exception_str := some "exc" }) := by
  have h1 := C10_job_result_classification (fun c => c == 200 || c == 500)
    (some 1) 500 "exc" rfl
  have h2 := C10_job_result_classification (fun c => c == 200 || c == 500)
    (some 250) 500 "exc" rfl
  exact ⟨h1.1, h2.2.1 250 rfl⟩

end Onyx
